import Mathlib

/-!
Verification development for the Python backend bridge (src/src/python.cc).

The file shallowly embeds the marshaling bridge, the bounded-retry handshake
and the instance initialization path of the backend, and proves the batch,
per-item and per-output properties stated about them.

Modelling conventions:
- Host accessor calls (request input/output counts, names, properties,
  response creation, buffer allocation) are external collaborators; they are
  modelled as succeeding, except for the memory domain the allocator grants,
  which is an explicit parameter, since those are the only outcomes the
  claims depend on.
- The raw byte payload of an encoded input is a buffer of the reported byte
  size filled by the input collector; its contents are external, so it is
  modelled as that many zero bytes. Every property proved here depends only
  on payload lengths, names, types, shapes and item ordering.
- Machine integers are modelled as Nat (sizes, counts, codes) and Int
  (int64 byte sizes and dimensions); no arithmetic here can overflow the
  source types for inputs that pass the explicit size ceiling.
-/

namespace PyBackend

/-- MAX_GRPC_MESSAGE_SIZE = INT32_MAX (python.cc line 94). -/
def MAX_GRPC_MESSAGE_SIZE : Nat := 2147483647

/-- TRITONSERVER_TYPE_BYTES numeric tag from the tritonserver datatype
enumeration (the variable-length opaque-bytes type). -/
def TRITONSERVER_TYPE_BYTES : Nat := 13

/-- TRITONSERVER_ERROR_INTERNAL code from the tritonserver error enumeration. -/
def ERROR_INTERNAL : Nat := 1

/-- TRITONSERVER_ERROR_UNSUPPORTED code from the tritonserver error
enumeration. -/
def ERROR_UNSUPPORTED : Nat := 5

/-- Wire tensor message: name, numeric type tag, dimension list and raw byte
payload (python_host proto Tensor, as used by python.cc). -/
structure Tensor where
  name : String
  dtype : Nat
  dims : List Int
  raw_data : List Nat
deriving DecidableEq

/-- A protobuf Tensor freshly added by add_inputs and never written to:
empty name, zero type tag, no dims, empty payload. -/
def defaultTensor : Tensor := { name := "", dtype := 0, dims := [], raw_data := [] }

/-- Element byte width per tritonserver data type tag, as used by the
backend_common GetByteSize helper (BOOL and 8-bit types 1, 16-bit 2,
32-bit 4, 64-bit 8; BYTES and INVALID have no fixed width). -/
def dataTypeByteSize : Nat → Nat
  | 1 => 1
  | 2 => 1
  | 3 => 2
  | 4 => 4
  | 5 => 8
  | 6 => 1
  | 7 => 2
  | 8 => 4
  | 9 => 8
  | 10 => 2
  | 11 => 4
  | 12 => 8
  | _ => 0

/-- Element count of a shape: product of the dimensions. -/
def elementCount (dims : List Int) : Int := dims.foldl (fun a d => a * d) 1

/-- backend_common GetByteSize: type/shape-derived byte size, the element
byte width times the element count. -/
def GetByteSize (dtype : Nat) (dims : List Int) : Int :=
  (dataTypeByteSize dtype : Int) * elementCount dims

/-- Memory domain granted by TRITONBACKEND_OutputBuffer for an output. -/
inductive MemType where
  | CPU
  | GPU
deriving DecidableEq

/-- One host-side input as reported by the request accessors: name, data
type, shape, and the reported byte size of its data. -/
structure HostInput where
  name : String
  dtype : Nat
  dims : List Int
  byteSize : Nat
deriving DecidableEq

/-- One host-side request item: inputs, requested output names, request id
and correlation id. -/
structure HostRequest where
  inputs : List HostInput
  requestedOutputNames : List String
  id : String
  correlationId : Nat
deriving DecidableEq

def defaultHostRequest : HostRequest :=
  { inputs := [], requestedOutputNames := [], id := "", correlationId := 0 }

/-- Error message of the oversize rejection (python.cc lines 403-407),
verbatim including its spelling. -/
def oversizeMsg : String :=
  "Python backend does not support input size larger than 2GBs, consider parititioning your input into multiple inputs."

/-- ModelInstanceState::GetInputTensor (python.cc lines 369-427): rejects a
payload whose byte size reaches MAX_GRPC_MESSAGE_SIZE with an UNSUPPORTED
error before writing anything into the wire tensor; otherwise copies name,
type tag and shape and fills a payload buffer of the reported byte size. -/
def GetInputTensor (inp : HostInput) : Except (Nat × String) Tensor :=
  if MAX_GRPC_MESSAGE_SIZE ≤ inp.byteSize then
    .error (ERROR_UNSUPPORTED, oversizeMsg)
  else
    .ok { name := inp.name, dtype := inp.dtype, dims := inp.dims,
          raw_data := List.replicate inp.byteSize 0 }

/-- The per-item input loop of TRITONBACKEND_ModelInstanceExecute
(python.cc lines 688-694). add_inputs always appends a fresh default
tensor; GetInputTensor then fills it, but only while the item is still
live. A failure sends the error response for the item (nulling it), after
which the remaining GetInputTensor calls are skipped by the guard while
the default tensors keep being appended. The second component is the
failure, if any, that killed the item. -/
def encodeInputs : List HostInput → Option (Nat × String) → (List Tensor × Option (Nat × String))
  | [], f => ([], f)
  | _ :: rest, some e =>
      let r := encodeInputs rest (some e)
      (defaultTensor :: r.1, r.2)
  | inp :: rest, none =>
      match GetInputTensor inp with
      | .ok t =>
        let r := encodeInputs rest none
        (t :: r.1, r.2)
      | .error e =>
        let r := encodeInputs rest (some e)
        (defaultTensor :: r.1, r.2)

/-- One item of the wire ExecuteRequest (proto InferenceRequest). -/
structure WireRequestItem where
  inputs : List Tensor
  requested_output_names : List String
  id : String
  correlation_id : Nat
deriving DecidableEq

/-- Encoding result for one request item: the wire item that goes into
ExecuteRequest, plus the error that already failed the item at encode
time, if any. -/
structure EncodedItem where
  wire : WireRequestItem
  encFail : Option (Nat × String)
deriving DecidableEq

/-- The per-item body of the ExecuteRequest construction loop (python.cc
lines 672-717). When the item was failed during input processing, the
guarded fetches of the requested output names, the id and the correlation
id are skipped, but the unguarded add_requested_output_names, set_id and
set_correlation_id calls still run on indeterminate values (modelled by
the undefS / undefId parameters). -/
def encodeItem (undefS : String) (undefId : Nat) (req : HostRequest) : EncodedItem :=
  let enc := encodeInputs req.inputs none
  match enc.2 with
  | none =>
    { wire := { inputs := enc.1, requested_output_names := req.requestedOutputNames,
                id := req.id, correlation_id := req.correlationId },
      encFail := none }
  | some cm =>
    { wire := { inputs := enc.1,
                requested_output_names := req.requestedOutputNames.map (fun _ => undefS),
                id := undefS, correlation_id := undefId },
      encFail := some cm }

/-- One item of the wire ExecuteResponse (proto InferenceResponse): a
failed flag, the error message, and the output tensor list. -/
structure InferenceResponse where
  failed : Bool
  errorMessage : String
  outputs : List Tensor
deriving DecidableEq

def defaultResponse : InferenceResponse := { failed := false, errorMessage := "", outputs := [] }

/-- Record of one output that had bytes copied into its host buffer:
metadata taken from the positionally read tensor, the allocated byte
size, the tensor the find-by-name matched, and the bytes std::copy wrote. -/
structure PopulatedOutput where
  name : String
  dtype : Nat
  dims : List Int
  allocByteSize : Int
  matched : Tensor
  written : List Nat
deriving DecidableEq

/-- State threaded through the output loop of one response item: whether
the response is still live, the copy-completed outputs, every buffer
allocation performed (tensor read at that position, allocated byte size),
and whether an out-of-range outputs(j) read happened (undefined behavior
in the source). -/
structure DecState where
  alive : Bool
  populated : List PopulatedOutput
  allocs : List (Tensor × Int)
  oob : Bool
deriving DecidableEq

/-- Error message used when the output buffer is not in CPU memory
(python.cc lines 837-841). -/
def gpuMsg : String := "can\x27t create response in GPU memory."

/-- One iteration j of the output loop (python.cc lines 796-873).
inference_response.outputs(j) is read unconditionally (out of range when
the worker sent fewer outputs than the caller requested). While the item
is live: the output byte size is the payload length for the BYTES tag and
the type/shape-derived size otherwise; a buffer of that size is allocated;
a GPU grant sends an unsupported error response, killing the item; then
the output list is searched for the first tensor whose name equals the
name of the positionally read tensor, a missing match is logged and
skipped, and on a match the entire matched payload is copied. -/
def decodeStep (outs : List Tensor) (alloc : Nat → MemType) (s : DecState) (j : Nat) : DecState :=
  let oobNow := s.oob || decide (outs.length ≤ j)
  let t := outs.getD j defaultTensor
  if s.alive then
    let sz : Int := if t.dtype = TRITONSERVER_TYPE_BYTES then (t.raw_data.length : Int)
                    else GetByteSize t.dtype t.dims
    let allocsNow := s.allocs ++ [(t, sz)]
    match alloc j with
    | .GPU => { alive := false, populated := s.populated, allocs := allocsNow, oob := oobNow }
    | .CPU =>
      match outs.find? (fun u => u.name = t.name) with
      | none => { alive := true, populated := s.populated, allocs := allocsNow, oob := oobNow }
      | some m =>
        { alive := true,
          populated := s.populated ++
            [{ name := t.name, dtype := t.dtype, dims := t.dims,
               allocByteSize := sz, matched := m, written := m.raw_data }],
          allocs := allocsNow, oob := oobNow }
  else
    { s with oob := oobNow }

/-- The output loop from index j for the given number of remaining
iterations. -/
def decodeFrom (outs : List Tensor) (alloc : Nat → MemType) : Nat → Nat → DecState → DecState
  | _, 0, s => s
  | j, rem + 1, s => decodeFrom outs alloc (j + 1) rem (decodeStep outs alloc s j)

/-- Terminal per-item outcome as the host observes it: an error response
with a tritonserver error code and message, or a success send. -/
inductive ItemResult where
  | failed (code : Nat) (msg : String)
  | sent
deriving DecidableEq

/-- Full decoded outcome of one batch item. -/
structure ItemFinal where
  result : ItemResult
  populated : List PopulatedOutput
  allocs : List (Tensor × Int)
  oob : Bool
deriving DecidableEq

def defaultItemFinal : ItemFinal := { result := .sent, populated := [], allocs := [], oob := false }

/-- Decoding of one response item (python.cc lines 769-888). An item that
was already failed at encode time keeps that error: its guarded output
count fetch is skipped so the output loop does not run and no success is
sent (the failed-branch send to the nulled response is a logged no-op).
A worker-flagged failure is sent verbatim as an INTERNAL error. Otherwise
the output loop runs for the requested output count; if it killed the
response the GPU unsupported error stands, else the success response is
sent. -/
def decodeItem (encFail : Option (Nat × String)) (nOut : Nat) (w : InferenceResponse)
    (alloc : Nat → MemType) : ItemFinal :=
  match encFail with
  | some cm => { result := .failed cm.1 cm.2, populated := [], allocs := [], oob := false }
  | none =>
    if w.failed then
      { result := .failed ERROR_INTERNAL w.errorMessage, populated := [], allocs := [], oob := false }
    else
      let s := decodeFrom w.outputs alloc 0 nOut
        { alive := true, populated := [], allocs := [], oob := false }
      { result := if s.alive then .sent else .failed ERROR_UNSUPPORTED gpuMsg,
        populated := s.populated, allocs := s.allocs, oob := s.oob }

/-- Outcome of the stub Execute round trip: a transport-level failure with
a status message, or the worker response list. -/
inductive Transport where
  | failure (msg : String)
  | success (responses : List InferenceResponse)

/-- Prefix of the whole-batch transport error message (python.cc lines
740-743). -/
def transportMsg (m : String) : String := "GRPC Execute Failed, message: " ++ m

/-- Result of one TRITONBACKEND_ModelInstanceExecute call: the wire request
handed to the stub, the per-item outcomes, and whether the worker response
list was shorter than the request list (in which case the source indexes
execute_response.responses out of range). -/
structure BatchResult where
  sentRequest : List WireRequestItem
  results : List ItemFinal
  shortResponse : Bool
deriving DecidableEq

/-- TRITONBACKEND_ModelInstanceExecute (python.cc lines 647-929). Every
item is encoded; the stub Execute call is made unconditionally with the
full encoded request, items failed at encode time included. On transport
failure every still-live item is failed with the shared transport message
while items already failed keep their encode error; on success the decode
loop runs index-for-index over the request count. -/
def executeBatch (undefS : String) (undefId : Nat) (reqs : List HostRequest)
    (tr : Transport) (alloc : Nat → Nat → MemType) : BatchResult :=
  let encoded := reqs.map (encodeItem undefS undefId)
  let sent := encoded.map EncodedItem.wire
  match tr with
  | .failure m =>
    { sentRequest := sent,
      shortResponse := false,
      results := encoded.map (fun e =>
        match e.encFail with
        | some cm => { result := .failed cm.1 cm.2, populated := [], allocs := [], oob := false }
        | none => { result := .failed ERROR_INTERNAL (transportMsg m),
                    populated := [], allocs := [], oob := false }) }
  | .success ws =>
    { sentRequest := sent,
      shortResponse := decide (ws.length < reqs.length),
      results := (List.range reqs.length).map (fun r =>
        decodeItem (encoded.getD r (encodeItem undefS undefId defaultHostRequest)).encFail
          ((reqs.getD r defaultHostRequest).requestedOutputNames.length)
          (ws.getD r defaultResponse) (alloc r)) }

/-- Result of the bounded-retry handshake: whether it succeeded, the
connected flag of the instance, how many Init RPC attempts ran, how many
retry-delay sleeps happened, and the error message returned on failure. -/
structure HandshakeResult where
  success : Bool
  connected : Bool
  attempts : Nat
  sleeps : Nat
  errMsg : String
deriving DecidableEq

/-- Total attempt budget: conn_attempts = 5 (python.cc line 274). -/
def conn_attempts : Nat := 5

/-- The retry loop of ConnectPythonInterpreter (python.cc lines 273-294),
from attempt index i with the given remaining budget. The attempt function
gives the status of the i-th Init RPC: none for OK, some message for a
transport error. On OK the loop returns immediately with the connected
flag set; otherwise it sleeps for the grpc timeout and retries; when the
budget is exhausted it returns an INTERNAL error carrying the message of
the last status. -/
def connectAux (attempt : Nat → Option String) (lastErr : String) : Nat → Nat → HandshakeResult
  | i, 0 => { success := false, connected := false, attempts := i, sleeps := i, errMsg := lastErr }
  | i, rem + 1 =>
    match attempt i with
    | none => { success := true, connected := true, attempts := i + 1, sleeps := i, errMsg := "" }
    | some e => connectAux attempt e (i + 1) rem

/-- ModelInstanceState::ConnectPythonInterpreter (python.cc lines 231-294):
runs the retry loop from attempt 0 with the full budget. -/
def ConnectPythonInterpreter (attempt : Nat → Option String) : HandshakeResult :=
  connectAux attempt "" 0 conn_attempts

/-- Side effects of the instance initialization path, for the scenario the
handshake claims address: mkdtemp and fork succeed, so the socket endpoint
exists and a worker process was spawned. processKilled and socketRemoved
record whether the backend ran kill/waitpid and unlink for them. -/
structure InitEffects where
  socketCreated : Bool
  processSpawned : Bool
  processKilled : Bool
  socketRemoved : Bool
  connected : Bool
  success : Bool
  errMsg : String
deriving DecidableEq

/-- TRITONBACKEND_ModelInstanceInitialize together with
CreatePythonInterpreter (python.cc lines 156-229 and 603-645), on the
successful-spawn path: the temporary socket directory is created and the
worker forked, then the parent runs ConnectPythonInterpreter. When the
handshake fails, CreatePythonInterpreter and the initialize callback
return the error directly: no kill, no waitpid and no unlink run on this
path (those live only in the ModelInstanceState destructor). -/
def modelInstanceInitEffects (attempt : Nat → Option String) : InitEffects :=
  let hs := ConnectPythonInterpreter attempt
  { socketCreated := true, processSpawned := true,
    processKilled := false, socketRemoved := false,
    connected := hs.connected, success := hs.success, errMsg := hs.errMsg }

/-- The ModelInstanceState destructor (python.cc lines 320-367), run by
TRITONBACKEND_ModelInstanceFinalize: best-effort Fini when connected, then
kill plus waitpid unconditionally, and unlink of the socket path when the
domain socket string was set. -/
def finalizeInstanceState (e : InitEffects) : InitEffects :=
  { e with processKilled := true, socketRemoved := e.socketCreated, connected := false }

/-! Concrete inputs used by the witnesses and counterexamples. -/

/-- Allocator that always grants CPU memory. -/
def cpuAlloc : Nat → MemType := fun _ => MemType.CPU

/-- Per-item allocator that always grants CPU memory. -/
def cpuAlloc2 : Nat → Nat → MemType := fun _ _ => MemType.CPU

/-- Allocator granting GPU memory for the first output and CPU after. -/
def gpuFirstAlloc : Nat → MemType := fun j => if j = 0 then MemType.GPU else MemType.CPU

/-- A 4-byte FP32 scalar input. -/
def okInput : HostInput := { name := "IN0", dtype := 11, dims := [1], byteSize := 4 }

/-- An input whose payload size equals the maximum message size. -/
def hugeInput : HostInput := { name := "IN1", dtype := 11, dims := [1], byteSize := 2147483647 }

/-- A request item with one small input. -/
def reqOk : HostRequest :=
  { inputs := [okInput], requestedOutputNames := ["OUT0"], id := "r0", correlationId := 0 }

/-- A request item with one oversized input. -/
def reqHuge : HostRequest :=
  { inputs := [hugeInput], requestedOutputNames := ["OUT1"], id := "r1", correlationId := 1 }

/-- An FP32 scalar wire tensor named OUT0 with a 4-byte payload. -/
def outTensor0 : Tensor := { name := "OUT0", dtype := 11, dims := [1], raw_data := [1, 2, 3, 4] }

/-- A worker response item carrying outTensor0. -/
def okResp : InferenceResponse := { failed := false, errorMessage := "", outputs := [outTensor0] }

/-- A worker response item flagged as failed. -/
def failResp : InferenceResponse :=
  { failed := true, errorMessage := "model raised an exception", outputs := [] }

/-- A successful worker response item whose only output has a name the
caller never requested. -/
def otherNameResp : InferenceResponse :=
  { failed := false, errorMessage := "",
    outputs := [{ name := "OTHER", dtype := 11, dims := [1], raw_data := [0, 0, 0, 0] }] }

/-- A successful worker response item with an empty output list. -/
def emptyOutResp : InferenceResponse := { failed := false, errorMessage := "", outputs := [] }

/-- A successful worker response item with two FP32 scalar outputs. -/
def twoOutResp : InferenceResponse :=
  { failed := false, errorMessage := "",
    outputs := [{ name := "A", dtype := 11, dims := [1], raw_data := [0, 0, 0, 0] },
                { name := "B", dtype := 11, dims := [1], raw_data := [0, 0, 0, 0] }] }

/-- A BYTES-typed wire tensor whose payload length is independent of its
shape-derived size. -/
def bytesTensor : Tensor := { name := "BO", dtype := 13, dims := [2], raw_data := [65, 66, 67] }

/-- A successful worker response item carrying bytesTensor. -/
def bytesResp : InferenceResponse :=
  { failed := false, errorMessage := "", outputs := [bytesTensor] }

/-- An FP32 scalar wire tensor whose payload is 8 bytes, longer than its
4-byte shape-derived size. -/
def longPayloadTensor : Tensor :=
  { name := "LP", dtype := 11, dims := [1], raw_data := [1, 2, 3, 4, 5, 6, 7, 8] }

/-- A successful worker response item carrying longPayloadTensor. -/
def longPayloadResp : InferenceResponse :=
  { failed := false, errorMessage := "", outputs := [longPayloadTensor] }

/-- An attempt function for which every Init RPC fails. -/
def allFailAttempt : Nat → Option String := fun _ => some "failed to connect to all addresses"

/-- An attempt function failing on attempts 0 and 1 and succeeding on 2. -/
def thirdTryAttempt : Nat → Option String := fun i => if i < 2 then some "unavailable" else none

/-- Fallback wire request item for indexing. -/
def defaultWireItem : WireRequestItem :=
  { inputs := [], requested_output_names := [], id := "", correlation_id := 0 }

/-- Invariant carried by every output whose bytes were copied: the matched
tensor is the first output whose name equals the name the loop used, the
written bytes are the entire matched payload, and for a non-BYTES type the
allocated size is the type/shape-derived size. -/
def popInv (outs : List Tensor) (p : PopulatedOutput) : Prop :=
  outs.find? (fun u => u.name = p.name) = some p.matched ∧
  p.written = p.matched.raw_data ∧
  (p.dtype ≠ TRITONSERVER_TYPE_BYTES → p.allocByteSize = GetByteSize p.dtype p.dims)

/-- The populated-output record produced by decoding longPayloadResp. -/
def longPayloadPopulated : PopulatedOutput :=
  { name := "LP", dtype := 11, dims := [1], allocByteSize := 4,
    matched := longPayloadTensor, written := [1, 2, 3, 4, 5, 6, 7, 8] }

/-! Handshake lemmas. -/

/-- If the first OK attempt in the window is at index k, the loop returns
success there, having made k + 1 attempts after k sleeps. -/
theorem connectAux_success (attempt : Nat → Option String) :
    ∀ rem i lastErr k, i ≤ k → k < i + rem → attempt k = none →
    (∀ j, i ≤ j → j < k → attempt j ≠ none) →
    connectAux attempt lastErr i rem =
      { success := true, connected := true, attempts := k + 1, sleeps := k, errMsg := "" } := by
  intro rem
  induction rem with
  | zero => intro i lastErr k hik hk _ _; omega
  | succ n ih =>
    intro i lastErr k hik hk hok hfail
    rcases Nat.eq_or_lt_of_le hik with heq | hlt
    · subst heq
      simp [connectAux, hok]
    · have hne : attempt i ≠ none := hfail i (Nat.le_refl i) hlt
      rcases h : attempt i with _ | e
      · exact absurd h hne
      · simp only [connectAux, h]
        exact ih (i + 1) e k hlt (by omega) hok (fun j hj hjk => hfail j (by omega) hjk)

/-- If every attempt in the window fails, the loop exhausts the budget,
sleeping after every attempt, and reports the last error message. -/
theorem connectAux_exhaust (attempt : Nat → Option String) :
    ∀ rem i lastErr, (∀ j, i ≤ j → j < i + rem → attempt j ≠ none) →
    connectAux attempt lastErr i rem =
      { success := false, connected := false, attempts := i + rem, sleeps := i + rem,
        errMsg := if rem = 0 then lastErr else (attempt (i + rem - 1)).getD "" } := by
  intro rem
  induction rem with
  | zero => intro i lastErr _; simp [connectAux]
  | succ n ih =>
    intro i lastErr hfail
    have hne : attempt i ≠ none := hfail i (Nat.le_refl i) (by omega)
    rcases h : attempt i with _ | e
    · exact absurd h hne
    · simp only [connectAux, h]
      rw [ih (i + 1) e (fun j hj hjn => hfail j (by omega) (by omega))]
      rcases n with _ | m
      · simp [h]
      · have harith : i + 1 + (m + 1) - 1 = i + (m + 1 + 1) - 1 := by omega
        simp only [harith, Nat.succ_ne_zero, if_false, HandshakeResult.mk.injEq]
        refine ⟨trivial, trivial, by omega, by omega, trivial⟩

/-- Specialization of the loop lemmas at the top entry point, with the
concrete budget of 5: first success at zero-based index k. -/
theorem connect_first_success (attempt : Nat → Option String) (k : Nat)
    (hk : k < conn_attempts) (hok : attempt k = none)
    (hfail : ∀ j, j < k → attempt j ≠ none) :
    ConnectPythonInterpreter attempt =
      { success := true, connected := true, attempts := k + 1, sleeps := k, errMsg := "" } := by
  exact connectAux_success attempt conn_attempts 0 "" k (Nat.zero_le k) (by omega) hok
    (fun j _ hjk => hfail j hjk)

/-- All five attempts failing: exhaustion with the message of attempt 4. -/
theorem connect_exhaust (attempt : Nat → Option String)
    (h : ∀ i, i < conn_attempts → attempt i ≠ none) :
    ConnectPythonInterpreter attempt =
      { success := false, connected := false, attempts := conn_attempts,
        sleeps := conn_attempts, errMsg := (attempt 4).getD "" } := by
  have := connectAux_exhaust attempt conn_attempts 0 "" (fun j _ hj => h j (by simpa using hj))
  simpa [ConnectPythonInterpreter, conn_attempts] using this

/-- Claim C5: the initialization handshake makes at most 5 attempts. If
some attempt k (zero-based k, human attempt k + 1, k < 5) is the first to
succeed, the loop stops immediately with the connected flag set and
returns success after exactly k + 1 attempts; if all 5 attempts fail, it
returns a failure carrying the error message of the last attempt, with
retry-delay waits between consecutive attempts. -/
theorem handshake_bounded_retry (attempt : Nat → Option String) :
    (∀ k, k < conn_attempts → attempt k = none → (∀ j, j < k → attempt j ≠ none) →
      (ConnectPythonInterpreter attempt).success = true ∧
      (ConnectPythonInterpreter attempt).connected = true ∧
      (ConnectPythonInterpreter attempt).attempts = k + 1) ∧
    ((∀ i, i < conn_attempts → attempt i ≠ none) →
      (ConnectPythonInterpreter attempt).success = false ∧
      (ConnectPythonInterpreter attempt).connected = false ∧
      (ConnectPythonInterpreter attempt).attempts = conn_attempts ∧
      (ConnectPythonInterpreter attempt).errMsg = (attempt 4).getD "") := by
  constructor
  · intro k hk hok hfail
    rw [connect_first_success attempt k hk hok hfail]
    exact ⟨rfl, rfl, rfl⟩
  · intro h
    rw [connect_exhaust attempt h]
    exact ⟨rfl, rfl, rfl, rfl⟩

/-- Witness for C5: with failures on attempts 0 and 1 and success on
attempt 2, the handshake succeeds after exactly 3 attempts. -/
theorem handshake_bounded_retry_witness :
    (ConnectPythonInterpreter thirdTryAttempt).success = true ∧
    (ConnectPythonInterpreter thirdTryAttempt).connected = true ∧
    (ConnectPythonInterpreter thirdTryAttempt).attempts = 2 + 1 :=
  (handshake_bounded_retry thirdTryAttempt).1 2 (by decide) (by decide)
    (fun j hj => by
      interval_cases j <;> simp [thirdTryAttempt])

/-- Counterexample for C6: with every attempt failing, initialization
reports failure but the worker process has not been killed and the socket
endpoint has not been removed, so a running worker and a filesystem
endpoint are left behind, contrary to the claim. -/
theorem init_no_teardown_counterexample :
    (modelInstanceInitEffects allFailAttempt).success = false ∧
    (modelInstanceInitEffects allFailAttempt).processSpawned = true ∧
    (modelInstanceInitEffects allFailAttempt).processKilled = false ∧
    (modelInstanceInitEffects allFailAttempt).socketCreated = true ∧
    (modelInstanceInitEffects allFailAttempt).socketRemoved = false := by
  decide

/-- Claim C6 as amended: when the handshake exhausts all retry attempts,
instance initialization reports the failure (carrying the last transport
error) and the instance never reaches the connected state, but it performs
no teardown itself: the spawned worker process is not killed and the
socket endpoint is not removed on this path. They are reclaimed only when
the instance state is later finalized, which kills and reaps the process
and unlinks the socket. -/
theorem init_failure_leaves_resources (attempt : Nat → Option String)
    (h : ∀ i, i < conn_attempts → attempt i ≠ none) :
    (modelInstanceInitEffects attempt).success = false ∧
    (modelInstanceInitEffects attempt).errMsg = (attempt 4).getD "" ∧
    (modelInstanceInitEffects attempt).connected = false ∧
    (modelInstanceInitEffects attempt).processKilled = false ∧
    (modelInstanceInitEffects attempt).socketRemoved = false ∧
    (finalizeInstanceState (modelInstanceInitEffects attempt)).processKilled = true ∧
    (finalizeInstanceState (modelInstanceInitEffects attempt)).socketRemoved = true := by
  simp only [modelInstanceInitEffects, finalizeInstanceState, connect_exhaust attempt h]
  exact ⟨trivial, trivial, trivial, trivial, trivial, trivial, trivial⟩

/-- Witness for the amended C6. -/
theorem init_failure_leaves_resources_witness :
    (modelInstanceInitEffects allFailAttempt).success = false ∧
    (modelInstanceInitEffects allFailAttempt).errMsg = (allFailAttempt 4).getD "" ∧
    (modelInstanceInitEffects allFailAttempt).connected = false ∧
    (modelInstanceInitEffects allFailAttempt).processKilled = false ∧
    (modelInstanceInitEffects allFailAttempt).socketRemoved = false ∧
    (finalizeInstanceState (modelInstanceInitEffects allFailAttempt)).processKilled = true ∧
    (finalizeInstanceState (modelInstanceInitEffects allFailAttempt)).socketRemoved = true :=
  init_failure_leaves_resources allFailAttempt (fun i _ => by simp [allFailAttempt])

/-! List indexing helpers. -/

/-- getD commutes with map when the fallback is the image of a fallback. -/
theorem getD_map_eq {α β : Type} (f : α → β) (l : List α) (d : α) (i : Nat) :
    (l.map f).getD i (f d) = f (l.getD i d) := by
  induction l generalizing i with
  | nil => simp
  | cons a t ih =>
    cases i with
    | zero => simp
    | succ n => simp [ih n]

/-- getD over a map of List.range evaluates the function at in-range
indices. -/
theorem getD_range_map {β : Type} (g : Nat → β) (n i : Nat) (d : β) (h : i < n) :
    ((List.range n).map g).getD i d = g i := by
  rw [List.getD_eq_getElem _ _ (by simpa using h)]
  simp

/-- Per-index unfolding of the success-path results of executeBatch: the
outcome at index r is the decode of the encode of request r against worker
response r under the allocator for item r. -/
theorem results_getD_eq (undefS : String) (undefId : Nat) (reqs : List HostRequest)
    (ws : List InferenceResponse) (alloc : Nat → Nat → MemType) (r : Nat) (hr : r < reqs.length) :
    (executeBatch undefS undefId reqs (Transport.success ws) alloc).results.getD r defaultItemFinal
      = decodeItem (encodeItem undefS undefId (reqs.getD r defaultHostRequest)).encFail
          ((reqs.getD r defaultHostRequest).requestedOutputNames.length)
          (ws.getD r defaultResponse) (alloc r) := by
  simp only [executeBatch]
  rw [getD_range_map _ _ _ _ hr]
  rw [getD_map_eq (encodeItem undefS undefId) reqs defaultHostRequest r]

/-! Encode lemmas. -/

/-- Once an item is failed during input processing, the failure it carries
is stable across the remaining inputs. -/
theorem encodeInputs_fail_absorb (l : List HostInput) (e : Nat × String) :
    (encodeInputs l (some e)).2 = some e := by
  induction l with
  | nil => rfl
  | cons a t ih => simp [encodeInputs, ih]

/-- The failure produced by the input loop is exactly the oversize
rejection, raised precisely when some input reaches the maximum message
size. -/
theorem encodeInputs_snd (l : List HostInput) :
    (encodeInputs l none).2 =
      if l.any (fun i => decide (MAX_GRPC_MESSAGE_SIZE ≤ i.byteSize)) then
        some (ERROR_UNSUPPORTED, oversizeMsg)
      else none := by
  induction l with
  | nil => rfl
  | cons a t ih =>
    by_cases h : MAX_GRPC_MESSAGE_SIZE ≤ a.byteSize
    · simp [encodeInputs, GetInputTensor, h, encodeInputs_fail_absorb]
    · simp only [encodeInputs, GetInputTensor, if_neg h]
      simpa [h] using ih

/-- The wire tensor list of an item always has one entry per host input,
whether or not the item was failed. -/
theorem encodeInputs_length (l : List HostInput) (f : Option (Nat × String)) :
    (encodeInputs l f).1.length = l.length := by
  induction l generalizing f with
  | nil => rfl
  | cons a t ih =>
    cases f with
    | some e => simpa [encodeInputs] using ih (some e)
    | none =>
      rcases h : GetInputTensor a with e | tt <;> simp [encodeInputs, h, ih]

/-- encFail of an encoded item, characterized by the presence of an
oversized input. -/
theorem encodeItem_encFail (undefS : String) (undefId : Nat) (req : HostRequest) :
    (encodeItem undefS undefId req).encFail =
      if req.inputs.any (fun i => decide (MAX_GRPC_MESSAGE_SIZE ≤ i.byteSize)) then
        some (ERROR_UNSUPPORTED, oversizeMsg)
      else none := by
  rw [← encodeInputs_snd]
  rcases h : (encodeInputs req.inputs none).2 with _ | cm <;> simp [encodeItem, h]

/-! Claim C1. -/

/-- Claim C1: for every executed batch of n request items the decoded
outcome sequence has length exactly n, and (when the worker reply is long
enough to make the index-r read of the source in range) the outcome at
index r is derived from worker response item r paired with request item r:
it equals the decode of request r against response r alone. -/
theorem response_pairs_with_request (undefS : String) (undefId : Nat)
    (reqs : List HostRequest) (ws : List InferenceResponse) (alloc : Nat → Nat → MemType)
    (_hlen : reqs.length ≤ ws.length) :
    (executeBatch undefS undefId reqs (Transport.success ws) alloc).results.length
        = reqs.length ∧
    ∀ r, r < reqs.length →
      (executeBatch undefS undefId reqs (Transport.success ws) alloc).results.getD r
          defaultItemFinal
        = decodeItem (encodeItem undefS undefId (reqs.getD r defaultHostRequest)).encFail
            ((reqs.getD r defaultHostRequest).requestedOutputNames.length)
            (ws.getD r defaultResponse) (alloc r) := by
  constructor
  · simp [executeBatch]
  · intro r hr
    exact results_getD_eq undefS undefId reqs ws alloc r hr

/-- Witness for C1 on a concrete 2-item batch. -/
theorem response_pairs_with_request_witness :
    [reqOk, reqOk].length ≤ [okResp, failResp].length ∧
    (executeBatch "" 0 [reqOk, reqOk] (Transport.success [okResp, failResp])
        cpuAlloc2).results.length = [reqOk, reqOk].length ∧
    (executeBatch "" 0 [reqOk, reqOk] (Transport.success [okResp, failResp])
        cpuAlloc2).results.getD 1 defaultItemFinal
      = decodeItem (encodeItem "" 0 ([reqOk, reqOk].getD 1 defaultHostRequest)).encFail
          (([reqOk, reqOk].getD 1 defaultHostRequest).requestedOutputNames.length)
          ([okResp, failResp].getD 1 defaultResponse) (cpuAlloc2 1) := by
  refine ⟨by decide, ?_, ?_⟩
  · exact (response_pairs_with_request "" 0 [reqOk, reqOk] [okResp, failResp] cpuAlloc2
      (by decide)).1
  · exact (response_pairs_with_request "" 0 [reqOk, reqOk] [okResp, failResp] cpuAlloc2
      (by decide)).2 1 (by decide)

/-! Claim C7. -/

/-- Claim C7: when the Execute round trip fails at the transport level,
the outcome sequence still has one entry per item, no item receives any
outputs, no item succeeds, and, provided no item had already been failed
during encoding (no oversized input), every one of the n items is failed
with the same single shared transport-error message. -/
theorem transport_failure_whole_batch (undefS : String) (undefId : Nat)
    (reqs : List HostRequest) (m : String) (alloc : Nat → Nat → MemType) :
    (executeBatch undefS undefId reqs (Transport.failure m) alloc).results.length
        = reqs.length ∧
    (∀ r, r < reqs.length →
      ((executeBatch undefS undefId reqs (Transport.failure m) alloc).results.getD r
          defaultItemFinal).populated = [] ∧
      ((executeBatch undefS undefId reqs (Transport.failure m) alloc).results.getD r
          defaultItemFinal).result ≠ ItemResult.sent) ∧
    ((∀ req ∈ reqs, ∀ inp ∈ req.inputs, inp.byteSize < MAX_GRPC_MESSAGE_SIZE) →
      ∀ r, r < reqs.length →
        ((executeBatch undefS undefId reqs (Transport.failure m) alloc).results.getD r
            defaultItemFinal).result
          = ItemResult.failed ERROR_INTERNAL (transportMsg m)) := by
  have hgetD : ∀ r, (hr : r < reqs.length) →
      (executeBatch undefS undefId reqs (Transport.failure m) alloc).results.getD r
          defaultItemFinal
        = match (encodeItem undefS undefId reqs[r]).encFail with
          | some cm => ({ result := .failed cm.1 cm.2, populated := [], allocs := [],
                          oob := false } : ItemFinal)
          | none => { result := .failed ERROR_INTERNAL (transportMsg m),
                      populated := [], allocs := [], oob := false } := by
    intro r hr
    simp only [executeBatch]
    rw [List.getD_eq_getElem _ _ (by simpa using hr), List.getElem_map, List.getElem_map]
  refine ⟨by simp [executeBatch], ?_, ?_⟩
  · intro r hr
    rw [hgetD r hr]
    rcases h : (encodeItem undefS undefId reqs[r]).encFail with _ | cm <;> simp [h]
  · intro hsmall r hr
    have hnone : (encodeItem undefS undefId reqs[r]).encFail = none := by
      rw [encodeItem_encFail]
      have hmem : reqs[r] ∈ reqs := List.getElem_mem hr
      have hni : ∀ inp ∈ reqs[r].inputs, ¬ MAX_GRPC_MESSAGE_SIZE ≤ inp.byteSize := by
        intro inp hinp
        exact Nat.not_le.mpr (hsmall _ hmem inp hinp)
      have hany : reqs[r].inputs.any
          (fun i => decide (MAX_GRPC_MESSAGE_SIZE ≤ i.byteSize)) = false := by
        rw [List.any_eq_false]
        intro inp hinp
        simpa using hni inp hinp
      simp [hany]
    rw [hgetD r hr, hnone]

/-- Witness for C7 on a concrete 2-item batch with small inputs. -/
theorem transport_failure_whole_batch_witness :
    ((executeBatch "" 0 [reqOk, reqOk] (Transport.failure "socket closed")
        cpuAlloc2).results.getD 0 defaultItemFinal).result
      = ItemResult.failed ERROR_INTERNAL (transportMsg "socket closed") ∧
    ((executeBatch "" 0 [reqOk, reqOk] (Transport.failure "socket closed")
        cpuAlloc2).results.getD 1 defaultItemFinal).result
      = ItemResult.failed ERROR_INTERNAL (transportMsg "socket closed") ∧
    ((executeBatch "" 0 [reqOk, reqOk] (Transport.failure "socket closed")
        cpuAlloc2).results.getD 0 defaultItemFinal).populated = [] := by
  have hs : ∀ req ∈ [reqOk, reqOk], ∀ inp ∈ req.inputs,
      inp.byteSize < MAX_GRPC_MESSAGE_SIZE := by decide
  have h := transport_failure_whole_batch "" 0 [reqOk, reqOk] "socket closed" cpuAlloc2
  exact ⟨h.2.2 hs 0 (by decide), h.2.2 hs 1 (by decide), (h.2.1 0 (by decide)).1⟩

/-! Decode-loop lemmas. -/

/-- A killed response stays killed for the rest of the output loop. -/
theorem decodeFrom_alive_false (outs : List Tensor) (alloc : Nat → MemType) :
    ∀ rem j s, s.alive = false → (decodeFrom outs alloc j rem s).alive = false := by
  intro rem
  induction rem with
  | zero => intro j s h; simpa [decodeFrom] using h
  | succ n ih =>
    intro j s h
    simp only [decodeFrom]
    apply ih
    simp [decodeStep, h]

/-- A GPU grant at iteration j kills the response in that step. -/
theorem decodeStep_gpu (outs : List Tensor) (alloc : Nat → MemType) (s : DecState) (j : Nat)
    (hg : alloc j = MemType.GPU) : (decodeStep outs alloc s j).alive = false := by
  cases ha : s.alive
  · simp [decodeStep, ha]
  · simp [decodeStep, ha, hg]

/-- If some index in the half-open window of the output loop receives a GPU
grant, the response ends up killed. -/
theorem decodeFrom_kill (outs : List Tensor) (alloc : Nat → MemType) :
    ∀ rem j s k, j ≤ k → k < j + rem → alloc k = MemType.GPU →
    (decodeFrom outs alloc j rem s).alive = false := by
  intro rem
  induction rem with
  | zero => intro j s k h1 h2 _; omega
  | succ n ih =>
    intro j s k h1 h2 hg
    rcases Nat.eq_or_lt_of_le h1 with he | hl
    · subst he
      simp only [decodeFrom]
      exact decodeFrom_alive_false outs alloc n (j + 1) _ (decodeStep_gpu outs alloc s j hg)
    · simp only [decodeFrom]
      exact ih (j + 1) (decodeStep outs alloc s j) k hl (by omega) hg

/-- Every allocation record a step adds carries exactly the byte size the
source computed: payload length for the BYTES tag, type/shape-derived size
otherwise. -/
theorem decodeStep_allocs (outs : List Tensor) (alloc : Nat → MemType) (s : DecState) (j : Nat) :
    ∀ p ∈ (decodeStep outs alloc s j).allocs, p ∈ s.allocs ∨
      p = (outs.getD j defaultTensor,
           if (outs.getD j defaultTensor).dtype = TRITONSERVER_TYPE_BYTES
           then ((outs.getD j defaultTensor).raw_data.length : Int)
           else GetByteSize (outs.getD j defaultTensor).dtype (outs.getD j defaultTensor).dims) := by
  intro p hp
  cases ha : s.alive
  · simp only [decodeStep, ha] at hp
    exact Or.inl hp
  · cases hga : alloc j
    · cases hf : outs.find? (fun u => u.name = (outs.getD j defaultTensor).name) <;>
      · simp only [decodeStep, ha, hga, hf] at hp
        rcases List.mem_append.mp hp with h1 | h2
        · exact Or.inl h1
        · exact Or.inr (List.mem_singleton.mp h2)
    · simp only [decodeStep, ha, hga] at hp
      rcases List.mem_append.mp hp with h1 | h2
      · exact Or.inl h1
      · exact Or.inr (List.mem_singleton.mp h2)

/-- Fold version of decodeStep_allocs. -/
theorem decodeFrom_allocs (outs : List Tensor) (alloc : Nat → MemType) :
    ∀ rem j s,
    (∀ p ∈ s.allocs, p.2 = if p.1.dtype = TRITONSERVER_TYPE_BYTES
        then (p.1.raw_data.length : Int) else GetByteSize p.1.dtype p.1.dims) →
    ∀ p ∈ (decodeFrom outs alloc j rem s).allocs,
      p.2 = if p.1.dtype = TRITONSERVER_TYPE_BYTES then (p.1.raw_data.length : Int)
        else GetByteSize p.1.dtype p.1.dims := by
  intro rem
  induction rem with
  | zero => intro j s h; simpa [decodeFrom] using h
  | succ n ih =>
    intro j s h
    simp only [decodeFrom]
    apply ih
    intro p hp
    rcases decodeStep_allocs outs alloc s j p hp with hold | hnew
    · exact h p hold
    · subst hnew; rfl

/-- Every populated output a step adds satisfies popInv. -/
theorem decodeStep_populated (outs : List Tensor) (alloc : Nat → MemType) (s : DecState)
    (j : Nat) :
    ∀ p ∈ (decodeStep outs alloc s j).populated, p ∈ s.populated ∨ popInv outs p := by
  intro p hp
  cases ha : s.alive
  · simp only [decodeStep, ha] at hp
    exact Or.inl hp
  · cases hga : alloc j
    · cases hf : outs.find? (fun u => u.name = (outs.getD j defaultTensor).name)
      · simp only [decodeStep, ha, hga, hf] at hp
        exact Or.inl hp
      · simp only [decodeStep, ha, hga, hf] at hp
        rcases List.mem_append.mp hp with h1 | h2
        · exact Or.inl h1
        · refine Or.inr ?_
          rw [List.mem_singleton.mp h2]
          refine ⟨hf, rfl, ?_⟩
          intro hne
          simp only [if_neg hne]
    · simp only [decodeStep, ha, hga] at hp
      exact Or.inl hp

/-- Fold version of decodeStep_populated. -/
theorem decodeFrom_populated (outs : List Tensor) (alloc : Nat → MemType) :
    ∀ rem j s, (∀ p ∈ s.populated, popInv outs p) →
    ∀ p ∈ (decodeFrom outs alloc j rem s).populated, popInv outs p := by
  intro rem
  induction rem with
  | zero => intro j s h; simpa [decodeFrom] using h
  | succ n ih =>
    intro j s h
    simp only [decodeFrom]
    apply ih
    intro p hp
    rcases decodeStep_populated outs alloc s j p hp with hold | hnew
    · exact h p hold
    · exact hnew

/-- Every populated output of a decoded item satisfies popInv against that
the worker output list of that item. -/
theorem decodeItem_populated (encFail : Option (Nat × String)) (nOut : Nat)
    (w : InferenceResponse) (alloc : Nat → MemType) :
    ∀ p ∈ (decodeItem encFail nOut w alloc).populated, popInv w.outputs p := by
  intro p hp
  rcases encFail with _ | cm
  · by_cases hw : w.failed = true
    · simp [decodeItem, hw] at hp
    · rw [decodeItem] at hp
      simp only [if_neg hw] at hp
      exact decodeFrom_populated w.outputs alloc nOut 0 _ (by intro q hq; simp at hq) p hp
  · simp [decodeItem] at hp

/-- Every allocation of a decoded item follows the byte size rule. -/
theorem decodeItem_allocs (encFail : Option (Nat × String)) (nOut : Nat)
    (w : InferenceResponse) (alloc : Nat → MemType) :
    ∀ p ∈ (decodeItem encFail nOut w alloc).allocs,
      p.2 = if p.1.dtype = TRITONSERVER_TYPE_BYTES then (p.1.raw_data.length : Int)
        else GetByteSize p.1.dtype p.1.dims := by
  intro p hp
  rcases encFail with _ | cm
  · by_cases hw : w.failed = true
    · simp [decodeItem, hw] at hp
    · rw [decodeItem] at hp
      simp only [if_neg hw] at hp
      exact decodeFrom_allocs w.outputs alloc nOut 0 _ (by intro q hq; simp at hq) p hp
  · simp [decodeItem] at hp

/-! Claim C2. -/

/-- Claim C2 (code-bug evaluation). The decode path, faithful to the
source, receives only the requested-output count: the caller-requested
output names are never consulted. At a concrete item whose single
requested output was named OUT0 while the worker emitted one tensor named
OTHER, the loop reads the tensor at position 0, searches the output set
for the name of that very tensor (which always succeeds), and populates an
output named OTHER; the item is sent as a success. And when the worker
omits the output entirely, the positional outputs(0) read of the source is
out of range instead of the logged skip the claim describes. -/
theorem output_matching_is_positional :
    ((decodeItem none 1 otherNameResp cpuAlloc).populated.map PopulatedOutput.name
        = ["OTHER"] ∧
     (decodeItem none 1 otherNameResp cpuAlloc).result = ItemResult.sent) ∧
    (decodeItem none 1 emptyOutResp cpuAlloc).oob = true := by
  decide

/-! Claim C3. -/

/-- Counterexample for C3: with a 2-item batch whose second item has an
oversized input, the request handed to the stub still has 2 items, the
rejected item included (as a placeholder with one default tensor), so a
batch containing that item is sent over the channel, contrary to the
claim. The rejection itself does happen: item 1 is failed with the
unsupported-size error and receives no outputs. -/
theorem oversize_batch_still_sent :
    (executeBatch "" 0 [reqOk, reqHuge] (Transport.success [okResp, emptyOutResp])
        cpuAlloc2).sentRequest.length = 2 ∧
    ((executeBatch "" 0 [reqOk, reqHuge] (Transport.success [okResp, emptyOutResp])
        cpuAlloc2).sentRequest.getD 1 defaultWireItem).inputs.length = 1 ∧
    ((executeBatch "" 0 [reqOk, reqHuge] (Transport.success [okResp, emptyOutResp])
        cpuAlloc2).results.getD 1 defaultItemFinal).result
      = ItemResult.failed ERROR_UNSUPPORTED oversizeMsg := by
  decide

/-- Claim C3 as amended: an input whose payload size reaches the maximum
message size causes its item to be failed with the unsupported-size error
during encoding, before the round trip, and that item gets no outputs;
sibling items without oversized inputs are unaffected (they decode
normally from their own worker response); however the batch is still sent
over the channel in full, the rejected item included as a placeholder
entry with one tensor slot per input. -/
theorem oversize_rejected_item_only (undefS : String) (undefId : Nat)
    (reqs : List HostRequest) (ws : List InferenceResponse) (alloc : Nat → Nat → MemType)
    (r : Nat) (hr : r < reqs.length)
    (hover : reqs[r].inputs.any (fun i => decide (MAX_GRPC_MESSAGE_SIZE ≤ i.byteSize)) = true) :
    ((executeBatch undefS undefId reqs (Transport.success ws) alloc).results.getD r
        defaultItemFinal).result = ItemResult.failed ERROR_UNSUPPORTED oversizeMsg ∧
    ((executeBatch undefS undefId reqs (Transport.success ws) alloc).results.getD r
        defaultItemFinal).populated = [] ∧
    (executeBatch undefS undefId reqs (Transport.success ws) alloc).sentRequest.length
        = reqs.length ∧
    ((executeBatch undefS undefId reqs (Transport.success ws) alloc).sentRequest.getD r
        defaultWireItem).inputs.length = reqs[r].inputs.length ∧
    (∀ j, (hj : j < reqs.length) →
      reqs[j].inputs.all (fun i => decide (i.byteSize < MAX_GRPC_MESSAGE_SIZE)) = true →
      (executeBatch undefS undefId reqs (Transport.success ws) alloc).results.getD j
          defaultItemFinal
        = decodeItem none reqs[j].requestedOutputNames.length (ws.getD j defaultResponse)
            (alloc j)) := by
  have hgetDreq : reqs.getD r defaultHostRequest = reqs[r] :=
    List.getD_eq_getElem reqs defaultHostRequest hr
  have hencr : (encodeItem undefS undefId reqs[r]).encFail
      = some (ERROR_UNSUPPORTED, oversizeMsg) := by
    rw [encodeItem_encFail, if_pos hover]
  refine ⟨?_, ?_, ?_, ?_, ?_⟩
  · rw [results_getD_eq undefS undefId reqs ws alloc r hr, hgetDreq, hencr]; rfl
  · rw [results_getD_eq undefS undefId reqs ws alloc r hr, hgetDreq, hencr]; rfl
  · simp [executeBatch]
  · simp only [executeBatch]
    rw [List.getD_eq_getElem _ _ (by simpa using hr), List.getElem_map, List.getElem_map]
    rcases h2 : (encodeInputs reqs[r].inputs none).2 with _ | cm <;>
      simp [encodeItem, h2, encodeInputs_length]
  · intro j hj hall
    have hgetDj : reqs.getD j defaultHostRequest = reqs[j] :=
      List.getD_eq_getElem reqs defaultHostRequest hj
    have hencj : (encodeItem undefS undefId reqs[j]).encFail = none := by
      rw [encodeItem_encFail]
      have hany : reqs[j].inputs.any
          (fun i => decide (MAX_GRPC_MESSAGE_SIZE ≤ i.byteSize)) = false := by
        rw [List.any_eq_false]
        intro inp hinp
        have := List.all_eq_true.mp hall inp hinp
        simp only [decide_eq_true_eq] at this ⊢
        omega
      simp [hany]
    rw [results_getD_eq undefS undefId reqs ws alloc j hj, hgetDj, hencj]

/-- Witness for the amended C3 at the concrete 2-item batch. -/
theorem oversize_rejected_item_only_witness :
    [reqOk, reqHuge][1].inputs.any
        (fun i => decide (MAX_GRPC_MESSAGE_SIZE ≤ i.byteSize)) = true ∧
    ((executeBatch "" 0 [reqOk, reqHuge] (Transport.success [okResp, emptyOutResp])
        cpuAlloc2).results.getD 1 defaultItemFinal).result
      = ItemResult.failed ERROR_UNSUPPORTED oversizeMsg ∧
    (executeBatch "" 0 [reqOk, reqHuge] (Transport.success [okResp, emptyOutResp])
        cpuAlloc2).results.getD 0 defaultItemFinal
      = decodeItem none [reqOk, reqHuge][0].requestedOutputNames.length
          ([okResp, emptyOutResp].getD 0 defaultResponse) (cpuAlloc2 0) := by
  have h := oversize_rejected_item_only "" 0 [reqOk, reqHuge] [okResp, emptyOutResp]
    cpuAlloc2 1 (by decide) (by decide)
  exact ⟨by decide, h.1, h.2.2.2.2 0 (by decide) (by decide)⟩

/-! Claim C4. -/

/-- Counterexample for C4: on an item whose first output buffer resolves to
GPU memory, the source sends an unsupported error response for the item
(force-failing it) and the remaining output of the same item is not
populated, contrary to the claim that the item is still reported as sent
with its other outputs delivered. -/
theorem gpu_output_not_recoverable :
    (decodeItem none 2 twoOutResp gpuFirstAlloc).result
      = ItemResult.failed ERROR_UNSUPPORTED gpuMsg ∧
    (decodeItem none 2 twoOutResp gpuFirstAlloc).populated = [] := by
  decide

/-- Claim C4 as amended: an output whose allocated buffer resolves to GPU
memory causes the whole item to be failed with the unsupported
GPU-memory error (the error response is sent and the item can no longer
be reported as sent), while sibling items in the batch are unaffected:
the outcome of any other item does not depend on the allocator grants of
the failed item. -/
theorem gpu_output_force_fails_item (nOut : Nat) (w : InferenceResponse)
    (alloc : Nat → MemType) (k : Nat) (hk : k < nOut) (hg : alloc k = MemType.GPU)
    (hw : w.failed = false) :
    (decodeItem none nOut w alloc).result = ItemResult.failed ERROR_UNSUPPORTED gpuMsg ∧
    ∀ (undefS : String) (undefId : Nat) (reqs : List HostRequest)
      (ws : List InferenceResponse) (alloc2 alloc2' : Nat → Nat → MemType) (r : Nat),
      (∀ q, q ≠ r → alloc2 q = alloc2' q) →
      ∀ s, s < reqs.length → s ≠ r →
        (executeBatch undefS undefId reqs (Transport.success ws) alloc2).results.getD s
            defaultItemFinal
          = (executeBatch undefS undefId reqs (Transport.success ws) alloc2').results.getD s
              defaultItemFinal := by
  constructor
  · have hkill := decodeFrom_kill w.outputs alloc nOut 0
      { alive := true, populated := [], allocs := [], oob := false } k (Nat.zero_le k)
      (by omega) hg
    rw [decodeItem]
    simp only [hw, Bool.false_eq_true, if_false, hkill]
  · intro undefS undefId reqs ws alloc2 alloc2' r hagree s hs hsr
    rw [results_getD_eq undefS undefId reqs ws alloc2 s hs,
        results_getD_eq undefS undefId reqs ws alloc2' s hs, hagree s hsr]

/-- Witness for the amended C4. -/
theorem gpu_output_force_fails_item_witness :
    0 < 2 ∧ gpuFirstAlloc 0 = MemType.GPU ∧ twoOutResp.failed = false ∧
    (decodeItem none 2 twoOutResp gpuFirstAlloc).result
      = ItemResult.failed ERROR_UNSUPPORTED gpuMsg :=
  ⟨by decide, by decide, by decide,
    (gpu_output_force_fails_item 2 twoOutResp gpuFirstAlloc 0 (by decide) (by decide)
      (by decide)).1⟩

/-! Claim C8. -/

/-- Claim C8: an item the worker flags as failed gets exactly the worker
failure message, surfaced verbatim as an INTERNAL error response; its
output handling is skipped entirely (nothing populated, nothing even
allocated); and sibling items are unaffected: the outcome of any other item
depends only on its own worker response, so it still receives its outputs
when the worker supplies them. -/
theorem worker_failure_isolated (undefS : String) (undefId : Nat)
    (reqs : List HostRequest) (ws ws' : List InferenceResponse) (alloc : Nat → Nat → MemType)
    (i : Nat) (hi : i < reqs.length)
    (henc : (encodeItem undefS undefId reqs[i]).encFail = none)
    (hfail : (ws.getD i defaultResponse).failed = true) :
    ((executeBatch undefS undefId reqs (Transport.success ws) alloc).results.getD i
        defaultItemFinal).result
      = ItemResult.failed ERROR_INTERNAL (ws.getD i defaultResponse).errorMessage ∧
    ((executeBatch undefS undefId reqs (Transport.success ws) alloc).results.getD i
        defaultItemFinal).populated = [] ∧
    ((executeBatch undefS undefId reqs (Transport.success ws) alloc).results.getD i
        defaultItemFinal).allocs = [] ∧
    (∀ j, (hj : j < reqs.length) → j ≠ i →
      ws.getD j defaultResponse = ws'.getD j defaultResponse →
      (executeBatch undefS undefId reqs (Transport.success ws) alloc).results.getD j
          defaultItemFinal
        = (executeBatch undefS undefId reqs (Transport.success ws') alloc).results.getD j
            defaultItemFinal) := by
  have hgetDreq : reqs.getD i defaultHostRequest = reqs[i] :=
    List.getD_eq_getElem reqs defaultHostRequest hi
  have hmain : (executeBatch undefS undefId reqs (Transport.success ws) alloc).results.getD i
      defaultItemFinal
      = { result := .failed ERROR_INTERNAL (ws.getD i defaultResponse).errorMessage,
          populated := [], allocs := [], oob := false } := by
    rw [results_getD_eq undefS undefId reqs ws alloc i hi, hgetDreq, henc, decodeItem]
    simp only [hfail, if_true]
  refine ⟨by rw [hmain], by rw [hmain], by rw [hmain], ?_⟩
  intro j hj _hji hws
  rw [results_getD_eq undefS undefId reqs ws alloc j hj,
      results_getD_eq undefS undefId reqs ws' alloc j hj, hws]

/-- Witness for C8: item 1 of a 2-item batch fails in the worker; item 0
still decodes from its own response. -/
theorem worker_failure_isolated_witness :
    (encodeItem "" 0 [reqOk, reqOk][1]).encFail = none ∧
    ([okResp, failResp].getD 1 defaultResponse).failed = true ∧
    ((executeBatch "" 0 [reqOk, reqOk] (Transport.success [okResp, failResp])
        cpuAlloc2).results.getD 1 defaultItemFinal).result
      = ItemResult.failed ERROR_INTERNAL
          ([okResp, failResp].getD 1 defaultResponse).errorMessage ∧
    (executeBatch "" 0 [reqOk, reqOk] (Transport.success [okResp, failResp])
        cpuAlloc2).results.getD 0 defaultItemFinal
      = (executeBatch "" 0 [reqOk, reqOk] (Transport.success [okResp, okResp])
          cpuAlloc2).results.getD 0 defaultItemFinal := by
  have h := worker_failure_isolated "" 0 [reqOk, reqOk] [okResp, failResp] [okResp, okResp]
    cpuAlloc2 1 (by decide) (by decide) (by decide)
  exact ⟨by decide, by decide, h.1, h.2.2.2 0 (by decide) (by decide) (by decide)⟩

/-! Claim C9. -/

/-- Claim C9: for every output buffer allocated while decoding any item of
any executed batch, the allocated byte size is the type/shape-derived
size, except when the type tag of the tensor is the variable-length BYTES type,
in which case it is exactly the length of the raw payload of that tensor,
independent of the shape-derived size. -/
theorem alloc_byte_size_rule (undefS : String) (undefId : Nat) (reqs : List HostRequest)
    (ws : List InferenceResponse) (alloc : Nat → Nat → MemType) (r : Nat)
    (hr : r < reqs.length) :
    ∀ p ∈ ((executeBatch undefS undefId reqs (Transport.success ws) alloc).results.getD r
        defaultItemFinal).allocs,
      p.2 = if p.1.dtype = TRITONSERVER_TYPE_BYTES then (p.1.raw_data.length : Int)
            else GetByteSize p.1.dtype p.1.dims := by
  rw [results_getD_eq undefS undefId reqs ws alloc r hr]
  exact decodeItem_allocs _ _ _ _

/-- Witness for C9: a BYTES output with shape [2] but a 3-byte payload is
allocated exactly 3 bytes (the shape-derived size would be 0). -/
theorem alloc_byte_size_rule_witness :
    (bytesTensor, (3 : Int)) ∈ ((executeBatch "" 0 [reqOk] (Transport.success [bytesResp])
        cpuAlloc2).results.getD 0 defaultItemFinal).allocs ∧
    (3 : Int) = (if bytesTensor.dtype = TRITONSERVER_TYPE_BYTES
        then (bytesTensor.raw_data.length : Int)
        else GetByteSize bytesTensor.dtype bytesTensor.dims) :=
  ⟨by decide,
    alloc_byte_size_rule "" 0 [reqOk] [bytesResp] cpuAlloc2 0 (by decide)
      (bytesTensor, (3 : Int)) (by decide)⟩

/-! Claim C10. -/

/-- Claim C10: for every delivered output of any item of any executed
batch, the bytes copied into the host buffer are the entire raw payload of
the matched tensor (the first output whose name matched), with no bound by
the allocated byte size: for a non-BYTES type the allocation is the
type/shape-derived size, so whenever the matched payload is longer than
that derived size, more bytes are written than the buffer holds. -/
theorem copy_length_unbounded (undefS : String) (undefId : Nat) (reqs : List HostRequest)
    (ws : List InferenceResponse) (alloc : Nat → Nat → MemType) (r : Nat)
    (hr : r < reqs.length) :
    ∀ p ∈ ((executeBatch undefS undefId reqs (Transport.success ws) alloc).results.getD r
        defaultItemFinal).populated,
      (ws.getD r defaultResponse).outputs.find? (fun u => u.name = p.name) = some p.matched ∧
      p.written = p.matched.raw_data ∧
      (p.dtype ≠ TRITONSERVER_TYPE_BYTES →
        p.allocByteSize = GetByteSize p.dtype p.dims ∧
        (GetByteSize p.dtype p.dims < (p.written.length : Int) →
          p.allocByteSize < (p.written.length : Int))) := by
  rw [results_getD_eq undefS undefId reqs ws alloc r hr]
  intro p hp
  obtain ⟨hfind, hwritten, hsz⟩ := decodeItem_populated _ _ _ _ p hp
  refine ⟨hfind, hwritten, ?_⟩
  intro hne
  refine ⟨hsz hne, ?_⟩
  intro hlt
  rw [hsz hne]
  exact hlt

/-- Witness for C10: an FP32 scalar output with an 8-byte payload gets a
4-byte buffer and all 8 payload bytes copied. -/
theorem copy_length_unbounded_witness :
    longPayloadPopulated ∈ ((executeBatch "" 0 [reqOk]
        (Transport.success [longPayloadResp]) cpuAlloc2).results.getD 0
        defaultItemFinal).populated ∧
    longPayloadPopulated.dtype ≠ TRITONSERVER_TYPE_BYTES ∧
    GetByteSize longPayloadPopulated.dtype longPayloadPopulated.dims
        < (longPayloadPopulated.written.length : Int) ∧
    longPayloadPopulated.allocByteSize < (longPayloadPopulated.written.length : Int) := by
  have h := copy_length_unbounded "" 0 [reqOk] [longPayloadResp] cpuAlloc2 0 (by decide)
    longPayloadPopulated (by decide)
  exact ⟨by decide, by decide, by decide, ((h.2.2 (by decide)).2 (by decide))⟩

end PyBackend
